import Mathlib

/-!
Verification of the LinkedIn MCP client (`linkedin_mcp_client/client.py`) and of the
backend browser/authentication module
(`backend/.../linkedin_mcp_server/drivers/browser.py`).

The Python code is shallowly embedded: stateful methods become explicit
state-passing functions, exceptions become an `Except` result, and the
subprocess stdout stream becomes a list of raw lines, each of which either
parses as a JSON message or does not (mirroring what `json.loads` does on it).
-/

namespace LinkedInMCP

/-- JSON values, as produced by `json.loads` and consumed by `json.dumps`. -/
inductive Json where
  | null
  | bool (b : Bool)
  | num (n : Int)
  | str (s : String)
  | arr (elems : List Json)
  | obj (fields : List (String × Json))

/-- The error object of a JSON-RPC response.  `client.py` reads it with
`error.get("message", "Unknown error")` and `error.get("code", -1)`, so both
fields are optional. -/
structure ErrObj where
  code : Option Int
  message : Option String

/-- A parsed JSON-RPC response message.  `client.py` reads the keys
`"error"` (presence test `"error" in response`), `"result"`
(`response.get("result", {})`) and never reads `"id"`; the `id` field is kept
in the model so that theorems can talk about id matching. -/
structure JsonMsg where
  id : Option Int
  error : Option ErrObj
  result : Option Json

/-- A JSON-RPC message written to the server stdin: a request carrying an id,
or a notification carrying none. -/
inductive WireMsg where
  | request (id : Nat) (method : String) (params : Json)
  | notification (method : String)

/-- The id of a wire message, when it is a request. -/
def WireMsg.reqId : WireMsg → Option Nat
  | .request i _ _ => some i
  | .notification _ => none

/-- One line read from the child process stdout, as classified by the body of
`_read_next_json_message`: empty after `.strip()`, non-JSON noise (what
`json.loads` rejects), or a parsed JSON message (what `json.loads` accepts). -/
inductive RawLine where
  | blank
  | noise (s : String)
  | jsonMsg (m : JsonMsg)

/-- The exceptions a request can surface.  The first three embed
`LinkedInMCPConnectionError`, `LinkedInMCPAuthenticationError` and
`LinkedInMCPToolError` from `exceptions.py`; `httpStatusError` embeds
`httpx.HTTPStatusError`, the exception `response.raise_for_status()` raises,
which is not a subclass of `httpx.RequestError`. -/
inductive Exc where
  | connectionError (msg : String)
  | authenticationError (msg : String)
  | toolError (msg : String)
  | httpStatusError (status : Nat)
deriving DecidableEq

/-- Whether an exception is the `LinkedInMCPConnectionError` class. -/
def Exc.isConnectionError : Exc → Bool
  | .connectionError _ => true
  | .authenticationError _ => false
  | .toolError _ => false
  | .httpStatusError _ => false

/-- Whether a call outcome is a raised `LinkedInMCPConnectionError`. -/
def resultIsConnectionError : Except Exc Json → Bool
  | .error e => e.isConnectionError
  | .ok _ => false

/-- The subprocess handle (`self.process`): the requests and notifications so
far written to its stdin, and the lines remaining on its stdout. -/
structure Proc where
  stdinWritten : List WireMsg
  stdoutLines : List RawLine

/-- The mutable state of a `LinkedInMCPClient` instance: `self.process`
(None until `connect()` spawns the server) and `self.request_id`
(initialized to 0 in `__init__`). -/
structure ClientState where
  process : Option Proc
  requestId : Nat

/-- A client as built by `__init__`: no process, `request_id = 0`. -/
def freshClient : ClientState := { process := none, requestId := 0 }

/-- Embeds `_read_next_json_message` (client.py lines 57-73): loop reading lines from
stdout; end of stream (`if not line`) raises
`LinkedInMCPConnectionError("Server closed connection")`; a line that is empty
after strip is skipped; a line `json.loads` rejects is printed to stderr and
skipped; the first line `json.loads` accepts is returned.  The remaining
stream is returned alongside, since the Python loop consumes the stream. -/
def readNextJsonMessage : List RawLine → Except Exc JsonMsg × List RawLine
  | [] => (.error (.connectionError "Server closed connection"), [])
  | .blank :: rest => readNextJsonMessage rest
  | .noise _ :: rest => readNextJsonMessage rest
  | .jsonMsg m :: rest => (.ok m, rest)

/-- The error-descriptor mapping block that appears verbatim both in
`_send_request_stdio` (client.py lines 94-103) and in `_send_request_http`
(lines 124-133): an error with `code == -32000` raises
`LinkedInMCPAuthenticationError`, any other error raises
`LinkedInMCPToolError`, otherwise `response.get("result", {})` is returned. -/
def handleResponse (resp : JsonMsg) : Except Exc Json :=
  match resp.error with
  | some err =>
    let errMsg := err.message.getD "Unknown error"
    if err.code.getD (-1) = -32000 then
      .error (.authenticationError errMsg)
    else
      .error (.toolError ("Server error: " ++ errMsg))
  | none => .ok (resp.result.getD (Json.obj []))

/-- Embeds `_send_request_stdio` (client.py lines 75-103).  If `self.process is None`
it raises `LinkedInMCPConnectionError` before doing anything else.  Otherwise
it allocates the next id with `_get_next_id` (increment then use), writes the
request to stdin, reads the next JSON message and applies the error mapping.
The updated state is returned in every branch because in Python the mutations
to `self.request_id`, stdin and stdout persist even when an exception is
raised. -/
def sendRequestStdio (st : ClientState) (method : String) (params : Json) :
    Except Exc Json × ClientState :=
  match st.process with
  | none => (.error (.connectionError "Server process not started. Call connect() first."), st)
  | some proc =>
    let reqId := st.requestId + 1
    let procW : Proc := { proc with stdinWritten := proc.stdinWritten ++ [.request reqId method params] }
    match readNextJsonMessage procW.stdoutLines with
    | (.error e, rest) =>
      (.error e, { st with requestId := reqId, process := some { procW with stdoutLines := rest } })
    | (.ok resp, rest) =>
      let st2 : ClientState := { st with requestId := reqId, process := some { procW with stdoutLines := rest } }
      match resp.error with
      | some err =>
        let errMsg := err.message.getD "Unknown error"
        if err.code.getD (-1) = -32000 then
          (.error (.authenticationError errMsg), st2)
        else
          (.error (.toolError ("Server error: " ++ errMsg)), st2)
      | none => (.ok (resp.result.getD (Json.obj [])), st2)

/-- What one `client.post(...)` in `_send_request_http` can come back with:
an `httpx.RequestError` (network failure), or an HTTP response with a status
code and a JSON body. -/
inductive HttpOutcome where
  | netFailure (msg : String)
  | response (status : Nat) (body : JsonMsg)

/-- Embeds `_send_request_http` (client.py lines 105-135).  The id is allocated with
`_get_next_id`, one POST is issued, then `response.raise_for_status()` runs:
on a non-2xx status it raises `httpx.HTTPStatusError`, which the
`except httpx.RequestError` clause does NOT catch (it is a sibling class), so
it propagates unchanged.  On a 2xx status the body goes through the same
error-descriptor mapping as the stdio path.  A network failure is an
`httpx.RequestError` and is converted to `LinkedInMCPConnectionError`. -/
def sendRequestHttp (st : ClientState) (outcome : HttpOutcome) :
    Except Exc Json × ClientState :=
  let reqId := st.requestId + 1
  let st2 : ClientState := { st with requestId := reqId }
  match outcome with
  | .netFailure msg => (.error (.connectionError ("HTTP request failed: " ++ msg)), st2)
  | .response status body =>
    if 200 ≤ status ∧ status < 300 then
      match body.error with
      | some err =>
        let errMsg := err.message.getD "Unknown error"
        if err.code.getD (-1) = -32000 then
          (.error (.authenticationError errMsg), st2)
        else
          (.error (.toolError ("Server error: " ++ errMsg)), st2)
      | none => (.ok (body.result.getD (Json.obj [])), st2)
    else
      (.error (.httpStatusError status), st2)

/-- The fixed handshake request built in `_initialize` (client.py lines
170-189): `{"jsonrpc": "2.0", "id": 1, "method": "initialize", ...}`.  Its id
is the literal `1`, not a value drawn from `_get_next_id`. -/
def initRequest : WireMsg :=
  .request 1 "initialize"
    (Json.obj
      [("protocolVersion", .str "2024-11-05"),
       ("capabilities", .obj []),
       ("clientInfo", .obj [("name", .str "linkedin-mcp-client"), ("version", .str "0.1.0")])])

/-- Embeds `_initialize`: write the fixed handshake request, read the next JSON
message, raise `LinkedInMCPConnectionError` if it carries an error, otherwise
write the `notifications/initialized` notification.  `self.request_id` is
never touched. -/
def initHandshake (proc : Proc) : Except Exc Unit × Proc :=
  let procW : Proc := { proc with stdinWritten := proc.stdinWritten ++ [initRequest] }
  match readNextJsonMessage procW.stdoutLines with
  | (.error e, rest) => (.error e, { procW with stdoutLines := rest })
  | (.ok resp, rest) =>
    let proc2 : Proc := { procW with stdoutLines := rest }
    match resp.error with
    | some _ => (.error (.connectionError "Initialize failed"), proc2)
    | none =>
      (.ok (), { proc2 with stdinWritten := proc2.stdinWritten ++ [.notification "notifications/initialized"] })

/-- Embeds `connect()` in stdio mode (client.py lines 143-160): if `self.process` is
None, spawn the server (modelled by handing over the stream of lines its
stdout will produce) and run `_initialize`; any exception from the handshake
is re-raised as `LinkedInMCPConnectionError`, but `self.process` stays set
because the assignment happened before `_initialize` ran. -/
def connectStdio (st : ClientState) (serverLines : List RawLine) :
    Except Exc Unit × ClientState :=
  match st.process with
  | some _ => (.ok (), st)
  | none =>
    let proc : Proc := { stdinWritten := [], stdoutLines := serverLines }
    match initHandshake proc with
    | (.ok _, proc2) => (.ok (), { st with process := some proc2 })
    | (.error _, proc2) => (.error (.connectionError "Failed to start server"), { st with process := some proc2 })

/-- Run a sequence of `_send_request_stdio` calls, threading the client state
through all of them whether each call returns or raises (in Python the
exception propagates to the caller but the object state persists). -/
def runCalls (st : ClientState) : List (String × Json) → ClientState
  | [] => st
  | c :: cs => runCalls (sendRequestStdio st c.1 c.2).2 cs

/-- The ids of all requests written to the server stdin, in order. -/
def wireRequestIds (proc : Proc) : List Nat :=
  proc.stdinWritten.filterMap WireMsg.reqId

/-- The ids of all requests the client has sent on the wire so far. -/
def sentIds (st : ClientState) : List Nat :=
  match st.process with
  | some proc => wireRequestIds proc
  | none => []

/-- Operations performed on the child process handle by `disconnect()`. -/
inductive ProcEvent where
  | terminate
  | waitFor
  | kill
deriving DecidableEq

/-- Embeds `disconnect()` (client.py lines 205-213): `if self.process:` then
`terminate()`, `wait(timeout=5)` (falling back to `kill()` on
`TimeoutExpired`, modelled by the `exitsInTime` flag), and `self.process =
None`.  When `self.process` is already None the body is skipped entirely: no
exception, no process operation.  The function returns the new state and the
list of operations performed on the handle. -/
def disconnect (st : ClientState) (exitsInTime : Bool) : ClientState × List ProcEvent :=
  match st.process with
  | none => (st, [])
  | some _ =>
    let evs := if exitsInTime then [ProcEvent.terminate, ProcEvent.waitFor]
               else [ProcEvent.terminate, ProcEvent.waitFor, ProcEvent.kill]
    ({ st with process := none }, evs)

/-- The primitive shared-stream and lock operations a call can perform.
`__init__` (client.py line 50) creates `self._lock = asyncio.Lock()`; a
serialized implementation would bracket each call in `acquireLock` /
`releaseLock`. -/
inductive ClientAction where
  | acquireLock
  | releaseLock
  | writeStdin
  | readStdout
deriving DecidableEq

/-- Whether an action is an acquisition of `self._lock`. -/
def ClientAction.isAcquire : ClientAction → Bool
  | .acquireLock => true
  | .releaseLock => false
  | .writeStdin => false
  | .readStdout => false

/-- The stdout reads performed by the loop of `_read_next_json_message`: one
`readline` per skipped line, plus the final `readline` that returns either
the JSON message or end-of-stream. -/
def readLoopActions : List RawLine → List ClientAction
  | [] => [.readStdout]
  | .blank :: rest => .readStdout :: readLoopActions rest
  | .noise _ :: rest => .readStdout :: readLoopActions rest
  | .jsonMsg _ :: _ => [.readStdout]

/-- The sequence of primitive operations `_send_request_stdio` performs, in
program order, as read off client.py lines 75-103: nothing when
`self.process` is None (it raises before any I/O), otherwise one stdin write
followed by the reads of `_read_next_json_message`.  No statement in the
method (or anywhere else in client.py) acquires `self._lock`. -/
def sendRequestStdioActions (st : ClientState) : List ClientAction :=
  match st.process with
  | none => []
  | some proc => .writeStdin :: readLoopActions proc.stdoutLines

/-- The server-side `AuthenticationError` from `linkedin_scraper`, raised by
`get_or_create_browser` and `ensure_authenticated` in browser.py. -/
inductive ServerAuthExc where
  | authError (msg : String)
deriving DecidableEq

/-- Observable browser actions of `get_or_create_browser`: loading the
persisted session file, navigating to the LinkedIn feed to validate it, and
logging in with the environment cookie. -/
inductive AEvent where
  | loadSession
  | gotoFeed
  | cookieLogin
deriving DecidableEq

/-- How `get_or_create_browser` obtained an authenticated browser. -/
inductive AuthMethod where
  | existing
  | viaSession
  | viaCookie
deriving DecidableEq

/-- The environment `get_or_create_browser` runs in: whether the singleton
`_browser` is already set, whether the session file exists, whether
`load_session` and the validation navigation succeed without exception,
whether `is_logged_in` holds after loading the session, the cookie returned
by `get_linkedin_cookie()`, whether `login_with_cookie` succeeds, and what
`is_logged_in` reports after a cookie login or on an existing browser. -/
structure AuthEnv where
  browserExists : Bool
  sessionFileExists : Bool
  sessionLoadOk : Bool
  sessionLoggedIn : Bool
  cookie : Option String
  cookieLoginOk : Bool
  loggedInAfterCookie : Bool
  loggedInNow : Bool

/-- Priority 1 of `get_or_create_browser` (browser.py lines 134-157): if the
session file exists, try `load_session` and navigate to the feed; return the
browser if `is_logged_in`, otherwise fall through (also on any exception). -/
def sessionBranch (env : AuthEnv) : Option AuthMethod × List AEvent :=
  if env.sessionFileExists then
    if env.sessionLoadOk then
      if env.sessionLoggedIn then (some .viaSession, [.loadSession, .gotoFeed])
      else (none, [.loadSession, .gotoFeed])
    else (none, [.loadSession])
  else (none, [])

/-- Priority 2 of `get_or_create_browser` (browser.py lines 159-172): if
`get_linkedin_cookie()` returns a cookie, try `login_with_cookie`; return the
browser on success, fall through on exception. -/
def cookieBranch (env : AuthEnv) : Option AuthMethod × List AEvent :=
  match env.cookie with
  | some _ =>
    if env.cookieLoginOk then (some .viaCookie, [.cookieLogin])
    else (none, [.cookieLogin])
  | none => (none, [])

/-- Embeds `get_or_create_browser` (browser.py lines 56-176): return the singleton
if set; otherwise create the browser, then priority 1 (session file), then
priority 2 (cookie), and finally raise `AuthenticationError` when neither
yields an authenticated browser. -/
def getOrCreateBrowser (env : AuthEnv) : Except ServerAuthExc AuthMethod × List AEvent :=
  if env.browserExists then (.ok .existing, [])
  else
    match sessionBranch env with
    | (some m, evs) => (.ok m, evs)
    | (none, evs1) =>
      match cookieBranch env with
      | (some m, evs2) => (.ok m, evs1 ++ evs2)
      | (none, evs2) =>
        (.error (.authError "No authentication found. Run with --get-session to create a session."),
         evs1 ++ evs2)

/-- What `is_logged_in(browser.page)` reports right after
`get_or_create_browser` returned through the given path. -/
def loggedInAfterMethod (env : AuthEnv) : AuthMethod → Bool
  | .existing => env.loggedInNow
  | .viaSession => env.sessionLoggedIn
  | .viaCookie => env.loggedInAfterCookie

/-- Embeds `validate_session` (browser.py lines 204-212): get or create the browser,
then report `is_logged_in` on its page. -/
def validateSession (env : AuthEnv) : Except ServerAuthExc Bool × List AEvent :=
  match getOrCreateBrowser env with
  | (.ok m, evs) => (.ok (loggedInAfterMethod env m), evs)
  | (.error e, evs) => (.error e, evs)

/-- Embeds `ensure_authenticated` (browser.py lines 214-222): raise
`AuthenticationError("Session expired or invalid.")` when `validate_session`
reports False; propagate its exception otherwise. -/
def ensureAuthenticated (env : AuthEnv) : Except ServerAuthExc Unit × List AEvent :=
  match validateSession env with
  | (.ok true, evs) => (.ok (), evs)
  | (.ok false, evs) => (.error (.authError "Session expired or invalid."), evs)
  | (.error e, evs) => (.error e, evs)

/-- The argument dictionary built by `search_jobs` (client.py lines 301-310).
Every optional is added under a Python truthiness test (`if keywords:`,
`if location:`, `if limit:`, `if time_posted:`), so `None`, the empty string
and the integer 0 are all omitted. -/
def searchJobsArgs (keywords location : Option String) (limit : Option Int)
    (timePosted : Option String) : List (String × Json) :=
  (match keywords with
   | some s => if s.isEmpty then [] else [("keywords", Json.str s)]
   | none => []) ++
  (match location with
   | some s => if s.isEmpty then [] else [("location", Json.str s)]
   | none => []) ++
  (match limit with
   | some n => if n = 0 then [] else [("limit", Json.num n)]
   | none => []) ++
  (match timePosted with
   | some s => if s.isEmpty then [] else [("time_posted", Json.str s)]
   | none => [])

/-- The argument dictionary built by `get_company_posts` (client.py lines
277-280): `url` always, and `limit` under an `is not None` test, so the
integer 0 is kept. -/
def getCompanyPostsArgs (url : String) (limit : Option Int) : List (String × Json) :=
  [("url", Json.str url)] ++
  (match limit with
   | some n => [("limit", Json.num n)]
   | none => [])

/-- Whether a stdout line parses as a JSON message. -/
def RawLine.isJson : RawLine → Bool
  | .jsonMsg _ => true
  | .blank => false
  | .noise _ => false

/-- Whether any line of the remaining stdout stream parses as JSON, i.e.
whether a parseable line arrives before the stream closes. -/
def hasJsonLine (l : List RawLine) : Bool := l.any RawLine.isJson

/-- The JSON-RPC success response the demo server sends to the handshake. -/
def initOkResponse : JsonMsg := { id := some 1, error := none, result := some (Json.obj []) }

/-- A response whose id (999) matches no request the client ever sent. -/
def hijackResponse : JsonMsg := { id := some 999, error := none, result := some (Json.str "hijacked") }

/-- A server stdout stream: a handshake response followed by a response whose
id matches no outstanding request. -/
def hijackedStream : List RawLine := [.jsonMsg initOkResponse, .jsonMsg hijackResponse]

section Lemmas

/-- If no line of the stream parses as JSON, the read loop runs to end of
stream and raises the connection error. -/
theorem readNext_of_no_json (l : List RawLine) (h : hasJsonLine l = false) :
    readNextJsonMessage l = (.error (.connectionError "Server closed connection"), []) := by
  induction l with
  | nil => rfl
  | cons a rest ih =>
    cases a with
    | blank =>
      exact ih (by simpa [hasJsonLine, RawLine.isJson] using h)
    | noise s =>
      exact ih (by simpa [hasJsonLine, RawLine.isJson] using h)
    | jsonMsg m => simp [hasJsonLine, RawLine.isJson] at h

/-- If some line of the stream parses as JSON, the read loop returns a
message. -/
theorem readNext_of_has_json (l : List RawLine) (h : hasJsonLine l = true) :
    ∃ m rest, readNextJsonMessage l = (.ok m, rest) := by
  induction l with
  | nil => simp [hasJsonLine] at h
  | cons a rest ih =>
    cases a with
    | blank =>
      exact ih (by simpa [hasJsonLine, RawLine.isJson] using h)
    | noise s =>
      exact ih (by simpa [hasJsonLine, RawLine.isJson] using h)
    | jsonMsg m => exact ⟨m, rest, rfl⟩

/-- The read loop performs no lock operation. -/
theorem readLoopActions_no_acquire (l : List RawLine) :
    (readLoopActions l).any ClientAction.isAcquire = false := by
  induction l with
  | nil => rfl
  | cons a rest ih =>
    cases a with
    | blank =>
      rw [show readLoopActions (.blank :: rest) = .readStdout :: readLoopActions rest from rfl,
        List.any_cons, ih]
      rfl
    | noise s =>
      rw [show readLoopActions (.noise s :: rest) = .readStdout :: readLoopActions rest from rfl,
        List.any_cons, ih]
      rfl
    | jsonMsg m => rfl

end Lemmas

/-- Claim C6 (confirmed): lines on the child stdout that do not parse as JSON
are discarded without raising: reading from a stream that starts with a noise
line behaves exactly like reading from the rest of the stream; in particular
a stream emitting the diagnostic line "debug: starting up" followed by a
valid JSON response yields that response, and a full stdio call over such a
stream returns the response result and raises nothing. -/
theorem c6_nonjson_lines_discarded :
    (∀ (s : String) (rest : List RawLine),
        readNextJsonMessage (.noise s :: rest) = readNextJsonMessage rest)
    ∧ (∀ (m : JsonMsg) (rest : List RawLine),
        readNextJsonMessage (.noise "debug: starting up" :: .jsonMsg m :: rest) = (.ok m, rest))
    ∧ (∀ (w : List WireMsg) (k : Nat) (m : String) (p : Json) (s : String)
         (payload : Json) (i : Option Int) (rest : List RawLine),
        (sendRequestStdio
          ⟨some ⟨w, RawLine.noise s :: RawLine.jsonMsg ⟨i, none, some payload⟩ :: rest⟩, k⟩
          m p).1 = .ok payload) :=
  ⟨fun _ _ => rfl, fun _ _ => rfl, fun _ _ _ _ _ _ _ _ => rfl⟩

/-- Claim C8 (confirmed): `disconnect` is idempotent: after one call the
process handle is cleared, and a second call returns the state unchanged and
performs no operation on the handle (no second terminate or kill, and the
function raises nothing). -/
theorem c8_disconnect_idempotent :
    ∀ (st : ClientState) (b b' : Bool),
      (disconnect (disconnect st b).1 b').1 = (disconnect st b).1
      ∧ (disconnect (disconnect st b).1 b').2 = []
      ∧ (disconnect st b).1.process = none := by
  intro st b b'
  cases hst : st.process with
  | none =>
    refine ⟨?_, ?_, ?_⟩ <;> simp [disconnect, hst]
  | some proc =>
    refine ⟨?_, ?_, ?_⟩ <;> simp [disconnect, hst]

/-- Claim C9 (code_bug evaluation): the sequence of primitive operations of
`_send_request_stdio` never acquires `self._lock`: the lock created in
`__init__` is unused, so nothing serializes the stdin write and the matching
stdout read of concurrent calls on the same handle. -/
theorem c9_no_lock_acquired :
    ∀ (st : ClientState), (sendRequestStdioActions st).any ClientAction.isAcquire = false := by
  intro st
  cases hst : st.process with
  | none => simp [sendRequestStdioActions, hst]
  | some proc =>
    rw [show sendRequestStdioActions st = .writeStdin :: readLoopActions proc.stdoutLines
        from by simp [sendRequestStdioActions, hst],
      List.any_cons, readLoopActions_no_acquire]
    rfl

/-- Claim C7 (confirmed): a stdio call raises `LinkedInMCPConnectionError`
exactly when the server process was never started (`self.process is None`) or
the stdout stream closes before any parseable JSON line arrives; in every
other situation the call terminates without a connection error. -/
theorem c7_connection_error_iff :
    ∀ (st : ClientState) (m : String) (p : Json),
      resultIsConnectionError (sendRequestStdio st m p).1 = true ↔
        st.process = none ∨
          ∃ proc, st.process = some proc ∧ hasJsonLine proc.stdoutLines = false := by
  intro st m p
  cases hst : st.process with
  | none =>
    simp [sendRequestStdio, hst, resultIsConnectionError, Exc.isConnectionError]
  | some proc =>
    cases hj : hasJsonLine proc.stdoutLines with
    | false =>
      have hr := readNext_of_no_json proc.stdoutLines hj
      simp [sendRequestStdio, hst, hr, resultIsConnectionError, Exc.isConnectionError, hj]
    | true =>
      obtain ⟨msg, rest, hr⟩ := readNext_of_has_json proc.stdoutLines hj
      rcases hmsg : msg.error with _ | err
      · simp [sendRequestStdio, hst, hr, hmsg, resultIsConnectionError,
          Exc.isConnectionError, hj]
      · by_cases hc : err.code.getD (-1) = -32000
        · simp [sendRequestStdio, hst, hr, hmsg, hc, resultIsConnectionError,
            Exc.isConnectionError, hj]
        · simp [sendRequestStdio, hst, hr, hmsg, hc, resultIsConnectionError,
            Exc.isConnectionError, hj]

/-- Claim C2 (confirmed): on either transport, a response carrying an error
descriptor with code -32000 raises `LinkedInMCPAuthenticationError`, one
carrying any other error descriptor raises `LinkedInMCPToolError`, and one
carrying no error descriptor raises nothing and returns the result payload
unchanged (the HTTP cases cover every 2xx status `200 + d` with `d < 100`). -/
theorem c2_error_code_mapping :
    ∀ (w : List WireMsg) (rest : List RawLine) (k : Nat) (m : String) (p : Json)
      (i : Option Int) (res : Option Json) (err : ErrObj) (payload : Json)
      (st : ClientState) (d : Fin 100),
      ((sendRequestStdio ⟨some ⟨w, RawLine.jsonMsg ⟨i, some err, res⟩ :: rest⟩, k⟩ m p).1
        = if err.code.getD (-1) = -32000
          then .error (.authenticationError (err.message.getD "Unknown error"))
          else .error (.toolError ("Server error: " ++ err.message.getD "Unknown error")))
      ∧ ((sendRequestStdio ⟨some ⟨w, RawLine.jsonMsg ⟨i, none, some payload⟩ :: rest⟩, k⟩ m p).1
        = .ok payload)
      ∧ ((sendRequestHttp st (.response (200 + d.val) ⟨i, some err, res⟩)).1
        = if err.code.getD (-1) = -32000
          then .error (.authenticationError (err.message.getD "Unknown error"))
          else .error (.toolError ("Server error: " ++ err.message.getD "Unknown error")))
      ∧ ((sendRequestHttp st (.response (200 + d.val) ⟨i, none, some payload⟩)).1
        = .ok payload) := by
  intro w rest k m p i res err payload st d
  have h2xx : 200 ≤ 200 + d.val ∧ 200 + d.val < 300 := ⟨Nat.le_add_right _ _, by omega⟩
  refine ⟨?_, rfl, ?_, ?_⟩
  · simp only [sendRequestStdio, readNextJsonMessage]
    split_ifs <;> rfl
  · simp only [sendRequestHttp]
    rw [if_pos h2xx]
    split_ifs <;> rfl
  · simp only [sendRequestHttp]
    rw [if_pos h2xx]
    rfl

/-- Claim C10 (confirmed): `search_jobs` omits an optional argument whenever
its value is falsy (so `limit = 0` and `keywords = ""` produce a payload with
no such key at all, exactly like `None`), whereas `get_company_posts` omits
`limit` only when it is exactly `None` and keeps `limit = 0`. -/
theorem c10_falsy_vs_none_omission :
    ∀ (k l t : Option String) (lim : Option Int) (url : String),
      ((searchJobsArgs k l lim t).lookup "limit"
          = match lim with
            | some n => if n = 0 then none else some (Json.num n)
            | none => none)
      ∧ ((searchJobsArgs (some "") l lim t).lookup "keywords" = none)
      ∧ ((getCompanyPostsArgs url lim).lookup "limit"
          = match lim with
            | some n => some (Json.num n)
            | none => none)
      ∧ ((searchJobsArgs k l (some 0) t).lookup "limit" = none)
      ∧ ((getCompanyPostsArgs url (some 0)).lookup "limit" = some (Json.num 0)) := by
  intro k l t lim url
  refine ⟨?_, ?_, ?_, ?_, ?_⟩
  · rcases k with _ | s1 <;> rcases l with _ | s2 <;> rcases t with _ | s3 <;>
      rcases lim with _ | n <;>
      simp only [searchJobsArgs] <;> (try split_ifs) <;>
      simp_all [List.lookup]
  · rcases l with _ | s2 <;> rcases t with _ | s3 <;> rcases lim with _ | n <;>
      simp only [searchJobsArgs, String.isEmpty] <;> (try split_ifs) <;>
      simp_all [List.lookup]
  · rcases lim with _ | n <;> simp [getCompanyPostsArgs, List.lookup]
  · rcases k with _ | s1 <;> rcases l with _ | s2 <;> rcases t with _ | s3 <;>
      simp only [searchJobsArgs] <;> (try split_ifs) <;>
      simp_all [List.lookup]
  · simp [getCompanyPostsArgs, List.lookup]

/-- Claim C5 (confirmed): credential resolution is in fixed priority order:
with no session file and a valid cookie, `ensure_authenticated` succeeds via
the cookie path; with a session file that loads and validates, it succeeds
via the session and never consults the cookie (the only browser actions are
loading the session and the validation navigation); with neither source it
raises `AuthenticationError` after performing no browser action at all. -/
theorem c5_auth_priority :
    ∀ (env : AuthEnv),
      (env.browserExists = false → env.sessionFileExists = false → env.cookie.isSome = true →
       env.cookieLoginOk = true → env.loggedInAfterCookie = true →
        (ensureAuthenticated env).1 = .ok () ∧ (getOrCreateBrowser env).1 = .ok .viaCookie)
      ∧ (env.browserExists = false → env.sessionFileExists = true → env.sessionLoadOk = true →
         env.sessionLoggedIn = true →
          (ensureAuthenticated env).1 = .ok () ∧ (getOrCreateBrowser env).1 = .ok .viaSession ∧
          (ensureAuthenticated env).2 = [AEvent.loadSession, AEvent.gotoFeed])
      ∧ (env.browserExists = false → env.sessionFileExists = false → env.cookie = none →
          (ensureAuthenticated env).1
            = .error (.authError "No authentication found. Run with --get-session to create a session.") ∧
          (ensureAuthenticated env).2 = []) := by
  intro env
  refine ⟨?_, ?_, ?_⟩
  · intro h1 h2 h3 h4 h5
    rcases hc : env.cookie with _ | c
    · rw [hc] at h3
      simp at h3
    · constructor <;>
        simp [ensureAuthenticated, validateSession, getOrCreateBrowser, sessionBranch,
          cookieBranch, loggedInAfterMethod, h1, h2, h4, h5, hc]
  · intro h1 h2 h3 h4
    refine ⟨?_, ?_, ?_⟩ <;>
      simp [ensureAuthenticated, validateSession, getOrCreateBrowser, sessionBranch,
        cookieBranch, loggedInAfterMethod, h1, h2, h3, h4]
  · intro h1 h2 h3
    constructor <;>
      simp [ensureAuthenticated, validateSession, getOrCreateBrowser, sessionBranch,
        cookieBranch, loggedInAfterMethod, h1, h2, h3]

/-- Witness for C5: the three scenarios at concrete environments. -/
theorem c5_auth_priority_witness :
    ((ensureAuthenticated ⟨false, false, false, false, some "li_at", true, true, false⟩).1 = .ok ()
      ∧ (getOrCreateBrowser ⟨false, false, false, false, some "li_at", true, true, false⟩).1
          = .ok .viaCookie)
    ∧ ((ensureAuthenticated ⟨false, true, true, true, none, false, false, false⟩).1 = .ok ()
      ∧ (getOrCreateBrowser ⟨false, true, true, true, none, false, false, false⟩).1
          = .ok .viaSession
      ∧ (ensureAuthenticated ⟨false, true, true, true, none, false, false, false⟩).2
          = [AEvent.loadSession, AEvent.gotoFeed])
    ∧ ((ensureAuthenticated ⟨false, false, false, false, none, false, false, false⟩).1
          = .error (.authError "No authentication found. Run with --get-session to create a session.")
      ∧ (ensureAuthenticated ⟨false, false, false, false, none, false, false, false⟩).2 = []) := by
  refine ⟨(c5_auth_priority _).1 rfl rfl rfl rfl rfl,
    (c5_auth_priority _).2.1 rfl rfl rfl rfl,
    (c5_auth_priority _).2.2 rfl rfl rfl⟩

/-- Counterexample to C1 as stated: over a connected client, the one call
sends request id 1, the stream delivers a response whose id is 999 — an id
matching no outstanding request — and yet the call returns that response's
result instead of treating it as a protocol violation. -/
theorem c1_counterexample :
    ((sendRequestStdio (connectStdio freshClient hijackedStream).2 "tools/list" (Json.obj [])).1
        = .ok (Json.str "hijacked"))
    ∧ ((sendRequestStdio (connectStdio freshClient hijackedStream).2 "tools/list" (Json.obj [])).2.requestId
        = 1)
    ∧ (hijackResponse.id = some 999)
    ∧ ((hijackResponse.id == some (1 : Int)) = false) :=
  ⟨rfl, rfl, rfl, rfl⟩

/-- Claim C1 (amended): a stdio call returns whatever the first parseable
JSON message on the stream dictates — the connection error of an exhausted
stream, or the error/result mapping of that message — and that mapping never
consults the message id, so responses are not matched to requests by id. -/
theorem c1_amended_no_id_matching :
    ∀ (st : ClientState) (proc : Proc) (m : String) (p : Json),
      (st.process = some proc →
        (sendRequestStdio st m p).1 =
          match (readNextJsonMessage proc.stdoutLines).1 with
          | .error e => .error e
          | .ok resp => handleResponse resp)
      ∧ (∀ (resp : JsonMsg) (i : Option Int),
          handleResponse { resp with id := i } = handleResponse resp) := by
  intro st proc m p
  constructor
  · intro h
    rcases hr : readNextJsonMessage proc.stdoutLines with ⟨res, rest⟩
    cases res with
    | error e => simp [sendRequestStdio, h, hr]
    | ok resp =>
      rcases hre : resp.error with _ | err
      · simp [sendRequestStdio, h, hr, handleResponse, hre]
      · simp only [sendRequestStdio, h, hr, handleResponse, hre]
        split_ifs <;> rfl
  · intro resp i
    cases resp
    rfl

/-- Witness for the amended C1 at a concrete client and concrete response. -/
theorem c1_amended_witness :
    ((sendRequestStdio ⟨some ⟨[], []⟩, 0⟩ "tools/list" (Json.obj [])).1 =
      match (readNextJsonMessage ([] : List RawLine)).1 with
      | .error e => .error e
      | .ok resp => handleResponse resp)
    ∧ (handleResponse { hijackResponse with id := some 5 } = handleResponse hijackResponse) := by
  have h := c1_amended_no_id_matching ⟨some ⟨[], []⟩, 0⟩ ⟨[], []⟩ "tools/list" (Json.obj [])
  exact ⟨h.1 rfl, h.2 hijackResponse (some 5)⟩

/-- Counterexample to C4 as stated: an HTTP 500 response propagates as
`httpx.HTTPStatusError`, not as a Connection error. -/
theorem c4_counterexample :
    ((sendRequestHttp freshClient (.response 500 ⟨none, none, none⟩)).1
        = .error (.httpStatusError 500))
    ∧ (resultIsConnectionError (sendRequestHttp freshClient (.response 500 ⟨none, none, none⟩)).1
        = false) :=
  ⟨rfl, rfl⟩

/-- Claim C4 (amended): over the HTTP transport a network failure is reported
as `LinkedInMCPConnectionError`; a non-2xx HTTP status instead propagates as
the uncaught `httpx.HTTPStatusError`; and a 2xx response is still inspected
for an embedded error descriptor via the shared error mapping. -/
theorem c4_amended_http_errors :
    ∀ (st : ClientState) (msg : String) (status : Nat) (body : JsonMsg) (d : Fin 100),
      ((sendRequestHttp st (.netFailure msg)).1
          = .error (.connectionError ("HTTP request failed: " ++ msg)))
      ∧ ((status < 200 ∨ 300 ≤ status) →
          (sendRequestHttp st (.response status body)).1 = .error (.httpStatusError status))
      ∧ ((sendRequestHttp st (.response (200 + d.val) body)).1 = handleResponse body) := by
  intro st msg status body d
  refine ⟨rfl, ?_, ?_⟩
  · intro h
    simp only [sendRequestHttp]
    rw [if_neg (by rcases h with h | h <;> omega)]
  · simp only [sendRequestHttp]
    rw [if_pos ⟨Nat.le_add_right _ _, by omega⟩]
    rcases hb : body.error with _ | err
    · simp [hb, handleResponse]
    · simp only [hb, handleResponse]
      split_ifs <;> rfl

/-- Witness for the amended C4 at concrete outcomes. -/
theorem c4_amended_witness :
    ((sendRequestHttp freshClient (.netFailure "connection refused")).1
        = .error (.connectionError ("HTTP request failed: " ++ "connection refused")))
    ∧ ((sendRequestHttp freshClient (.response 404 ⟨none, none, none⟩)).1
        = .error (.httpStatusError 404))
    ∧ ((sendRequestHttp freshClient (.response (200 + (⟨0, by omega⟩ : Fin 100).val) ⟨none, none, none⟩)).1
        = handleResponse ⟨none, none, none⟩) := by
  have h := c4_amended_http_errors freshClient "connection refused" 404 ⟨none, none, none⟩
    ⟨0, by omega⟩
  exact ⟨h.1, h.2.1 (Or.inr (by omega)), h.2.2⟩

/-- The exact state after one stdio call: whatever the outcome, the request
with id `request_id + 1` has been written, the read lines have been consumed,
and the counter stands at `request_id + 1`. -/
theorem send_state (st : ClientState) (proc : Proc) (m : String) (p : Json)
    (h : st.process = some proc) :
    (sendRequestStdio st m p).2 =
      ⟨some ⟨proc.stdinWritten ++ [WireMsg.request (st.requestId + 1) m p],
        (readNextJsonMessage proc.stdoutLines).2⟩, st.requestId + 1⟩ := by
  rcases hr : readNextJsonMessage proc.stdoutLines with ⟨res, rest⟩
  cases res with
  | error e => simp [sendRequestStdio, h, hr]
  | ok resp =>
    rcases hre : resp.error with _ | err
    · simp [sendRequestStdio, h, hr, hre]
    · simp only [sendRequestStdio, h, hr, hre]
      split_ifs <;> rfl

/-- Over any sequence of stdio calls, the newly written request ids are the
consecutive integers drawn from the shared counter, whether each call
returned or raised. -/
theorem runCalls_ids (cs : List (String × Json)) :
    ∀ (st : ClientState) (proc : Proc), st.process = some proc →
      ∃ proc2, (runCalls st cs).process = some proc2
        ∧ wireRequestIds proc2
            = wireRequestIds proc ++ List.range' (st.requestId + 1) cs.length := by
  induction cs with
  | nil =>
    intro st proc h
    exact ⟨proc, h, by simp⟩
  | cons c cs ih =>
    intro st proc h
    have hs := send_state st proc c.1 c.2 h
    have h2 : (sendRequestStdio st c.1 c.2).2.process
        = some ⟨proc.stdinWritten ++ [WireMsg.request (st.requestId + 1) c.1 c.2],
            (readNextJsonMessage proc.stdoutLines).2⟩ := by
      rw [hs]
    obtain ⟨proc2, hp2, hw2⟩ := ih (sendRequestStdio st c.1 c.2).2 _ h2
    have hid2 : (sendRequestStdio st c.1 c.2).2.requestId = st.requestId + 1 := by rw [hs]
    refine ⟨proc2, ?_, ?_⟩
    · simpa [runCalls] using hp2
    · rw [hid2] at hw2
      rw [hw2]
      simp [wireRequestIds, List.filterMap_append, WireMsg.reqId, List.range'_succ,
        List.append_assoc]

/-- After `connect()` on a fresh client, exactly one request — the handshake
request with the hard-coded id 1 — has been written, and the shared counter
still stands at 0. -/
theorem connect_fresh_state (serverLines : List RawLine) :
    ∃ proc2, (connectStdio freshClient serverLines).2.process = some proc2
      ∧ wireRequestIds proc2 = [1]
      ∧ (connectStdio freshClient serverLines).2.requestId = 0 := by
  rcases hr : readNextJsonMessage serverLines with ⟨res, rest⟩
  cases res with
  | error e =>
    refine ⟨⟨[initRequest], rest⟩, ?_, ?_, ?_⟩ <;>
      simp [connectStdio, freshClient, initHandshake, hr, wireRequestIds, WireMsg.reqId,
        initRequest]
  | ok resp =>
    rcases hre : resp.error with _ | err
    · refine ⟨⟨[initRequest, WireMsg.notification "notifications/initialized"], rest⟩,
        ?_, ?_, ?_⟩ <;>
        simp [connectStdio, freshClient, initHandshake, hr, hre, wireRequestIds, WireMsg.reqId,
          initRequest]
    · refine ⟨⟨[initRequest], rest⟩, ?_, ?_, ?_⟩ <;>
        simp [connectStdio, freshClient, initHandshake, hr, hre, wireRequestIds, WireMsg.reqId,
          initRequest]

/-- Lists built by `List.range'` with step 1 are strictly increasing. -/
theorem chainLt_range' (a n : Nat) : List.Chain' (· < ·) (List.range' a n) := by
  induction n generalizing a with
  | zero => simp
  | succ n ih =>
    rw [List.range'_succ]
    rcases n with _ | k
    · simp
    · rw [List.range'_succ, List.chain'_cons]
      refine ⟨by omega, ?_⟩
      rw [← List.range'_succ]
      exact ih (a + 1)

/-- Counterexample to C3 as stated: a session consisting of `connect()` (whose
handshake request carries the hard-coded id 1, not a counter value) followed
by one tool call (whose id, drawn from the still-untouched counter, is again
1) sends the id sequence [1, 1]: id 1 is used twice, so the on-the-wire ids
are not strictly increasing across the lifetime. -/
theorem c3_counterexample :
    (sentIds (runCalls (connectStdio freshClient hijackedStream).2 [("tools/list", Json.obj [])])
        = [1, 1])
    ∧ ((sentIds (runCalls (connectStdio freshClient hijackedStream).2
          [("tools/list", Json.obj [])])).count 1 = 2) :=
  ⟨rfl, rfl⟩

/-- Claim C3 (amended): requests issued through `_send_request` draw strictly
increasing ids 1, 2, 3, … from the shared counter, never reused even after an
error; but the `initialize` handshake request carries a hard-coded id 1 that
does not come from the counter (which still stands at 0 after `connect`), so
the full wire trace of a session is `1 :: [1, 2, …, n]` and id 1 appears
twice as soon as one call follows the handshake. -/
theorem c3_amended_ids :
    ∀ (cs : List (String × Json)) (serverLines : List RawLine),
      sentIds (runCalls (connectStdio freshClient serverLines).2 cs)
        = 1 :: List.range' 1 cs.length
      ∧ (connectStdio freshClient serverLines).2.requestId = 0
      ∧ List.Chain' (· < ·) (List.range' 1 cs.length) := by
  intro cs serverLines
  obtain ⟨proc2, hp, hw, hid⟩ := connect_fresh_state serverLines
  obtain ⟨proc3, hp3, hw3⟩ := runCalls_ids cs _ proc2 hp
  refine ⟨?_, hid, chainLt_range' 1 cs.length⟩
  have hse : sentIds (runCalls (connectStdio freshClient serverLines).2 cs)
      = wireRequestIds proc3 := by
    simp [sentIds, hp3]
  rw [hse, hw3, hw, hid]
  rfl

end LinkedInMCP
